import Mathlib

/-!
Formal model of the `objects` app of the cultural-heritage catalog backend
(Makedoncek/cultural-heritage): the data model (`CulturalObject`), the
visibility policy (`ObjectViewSet.get_queryset`), the ownership and
status-transition policy (`perform_create`, `perform_update`, `destroy`,
`CulturalObject.archive`, `CulturalObject.restore`), and the write-path
validation (`ObjectWriteSerializer`), together with theorems settling the
specification claims about them.

Conventions of the embedding:
- Django model instances become a Lean structure `CulturalObject`; the
  database is a `List CulturalObject`; primary keys are `Nat`s.
- `DecimalField` coordinates become exact rationals (`Rat`); Django
  timestamps become `Nat` instants supplied by the caller of each
  operation (`timezone.now()` / `auto_now` become an explicit `now`
  argument).
- The request user becomes `Caller`: `anon` (AnonymousUser, for which
  Django reports `is_staff = False`, `is_authenticated = False`) or
  `auth uid staff`.
- Fallible endpoint handlers return an explicit result type instead of
  raising; the HTTP layer and pagination are not modelled.
-/

/-- The three moderation states of `CulturalObject.STATUS_CHOICES`
(models.py lines 65-69). -/
inductive Status
  | pending
  | approved
  | archived
deriving DecidableEq, Repr

/-- A `CulturalObject` row (models.py lines 48-172).  `description` uses the
empty string for "no data" exactly as the Django `TextField(blank=True)`
does; the three link fields are `Option` because the source declares them
`null=True`. -/
structure CulturalObject where
  oid : Nat
  title : String
  description : String
  latitude : Rat
  longitude : Rat
  author : Nat
  tags : List Nat
  status : Status
  wikipedia_url : Option String
  official_website : Option String
  google_maps_url : Option String
  created_at : Nat
  updated_at : Nat
  archived_at : Option Nat
deriving DecidableEq, Repr

/-- The caller identity as DRF sees it: `request.user`. -/
inductive Caller
  | anon
  | auth (uid : Nat) (staff : Bool)
deriving DecidableEq, Repr

/-- Embedding of `request.user.is_staff` (Django returns `False` for `AnonymousUser`). -/
def Caller.is_staff : Caller → Bool
  | Caller.anon => false
  | Caller.auth _ s => s

/-- Embedding of `request.user.is_authenticated`. -/
def Caller.is_authenticated : Caller → Bool
  | Caller.anon => false
  | Caller.auth _ _ => true

/-- The filter `Q(author=user)`: true when the caller is the row's author. -/
def Caller.owns : Caller → CulturalObject → Bool
  | Caller.anon, _ => false
  | Caller.auth uid _, o => o.author == uid

/-- Embedding of `ObjectViewSet.get_queryset` (views.py lines 65-76): start from
`CulturalObject.objects.exclude(status='archived')`; staff get the whole
base queryset; other authenticated users get
`filter(Q(status='approved') | Q(author=user))`; anonymous callers get
`filter(status='approved')`. -/
def get_queryset (user : Caller) (db : List CulturalObject) : List CulturalObject :=
  let base_qs := db.filter (fun o => decide (o.status ≠ Status.archived))
  if user.is_staff then
    base_qs
  else if user.is_authenticated then
    base_qs.filter (fun o => decide (o.status = Status.approved) || user.owns o)
  else
    base_qs.filter (fun o => decide (o.status = Status.approved))

/-- The body a caller submits to the write endpoints, before the serializer
selects its declared fields.  Besides the eight fields of
`ObjectWriteSerializer.Meta.fields` it can carry values for `status`,
`author` and the three timestamps — the serializer never reads those
(claim C10). -/
structure RawPayload where
  title : Option String
  description : Option String
  latitude : Option Rat
  longitude : Option Rat
  tags : Option (List Nat)
  wikipedia_url : Option (Option String)
  official_website : Option (Option String)
  google_maps_url : Option (Option String)
  status : Option Status
  author : Option Nat
  archived_at : Option (Option Nat)
  created_at : Option Nat
  updated_at : Option Nat
deriving DecidableEq, Repr

/-- The validated data the write serializer can produce: exactly the eight
fields of `ObjectWriteSerializer.Meta.fields` (serializers.py lines
114-125), each optional because a PATCH may omit it. -/
structure WritePayload where
  title : Option String
  description : Option String
  latitude : Option Rat
  longitude : Option Rat
  tags : Option (List Nat)
  wikipedia_url : Option (Option String)
  official_website : Option (Option String)
  google_maps_url : Option (Option String)
deriving DecidableEq, Repr

/-- Field selection performed by `ObjectWriteSerializer`: only the names in
`Meta.fields` are ever read from the submitted body; `status`, `author`,
`archived_at`, `created_at` and `updated_at` are dropped. -/
def writeSerializerExtract (p : RawPayload) : WritePayload :=
  { title := p.title
    description := p.description
    latitude := p.latitude
    longitude := p.longitude
    tags := p.tags
    wikipedia_url := p.wikipedia_url
    official_website := p.official_website
    google_maps_url := p.google_maps_url }

/-- Embedding of `serializer.update(instance, validated_data)` followed by the full
`instance.save()`: every validated field overwrites the instance field,
everything else is kept, and the full save refreshes the `auto_now`
column `updated_at` (models.py lines 150-153). -/
def applyWrite (o : CulturalObject) (d : WritePayload) (now : Nat) : CulturalObject :=
  { o with
    title := d.title.getD o.title
    description := d.description.getD o.description
    latitude := d.latitude.getD o.latitude
    longitude := d.longitude.getD o.longitude
    tags := d.tags.getD o.tags
    wikipedia_url := d.wikipedia_url.getD o.wikipedia_url
    official_website := d.official_website.getD o.official_website
    google_maps_url := d.google_maps_url.getD o.google_maps_url
    updated_at := now }

/-- Embedding of `ObjectViewSet.perform_update` (views.py lines 81-87): if the instance
is currently `approved` and the caller is not staff, save with
`status='pending'`; otherwise save unchanged. -/
def perform_update (user : Caller) (o : CulturalObject) (d : WritePayload) (now : Nat) :
    CulturalObject :=
  let is_approved := decide (o.status = Status.approved)
  if !user.is_staff && is_approved then
    { applyWrite o d now with status := Status.pending }
  else
    applyWrite o d now

/-- Embedding of `ObjectViewSet.perform_create` (views.py lines 78-79):
`serializer.save(author=request.user)` creates a fresh row from the
validated fields with `author` forced to the caller; `status` takes the
model default `'pending'` (models.py lines 119-125), `archived_at` is
null, and both timestamps are set to creation time. -/
def perform_create (uid : Nat) (d : WritePayload) (oid now : Nat) : CulturalObject :=
  { oid := oid
    title := d.title.getD ""
    description := d.description.getD ""
    latitude := d.latitude.getD 0
    longitude := d.longitude.getD 0
    author := uid
    tags := d.tags.getD []
    status := Status.pending
    wikipedia_url := (d.wikipedia_url.getD none)
    official_website := (d.official_website.getD none)
    google_maps_url := (d.google_maps_url.getD none)
    created_at := now
    updated_at := now
    archived_at := none }

/-- Embedding of `CulturalObject.archive` (models.py lines 177-185): set
`status='archived'`, `archived_at=timezone.now()`, then
`save(update_fields=['status', 'archived_at'])` — a restricted write that
does not touch the `auto_now` column `updated_at`. -/
def CulturalObject.archive (o : CulturalObject) (now : Nat) : CulturalObject :=
  { o with status := Status.archived, archived_at := some now }

/-- Embedding of `CulturalObject.restore` (models.py lines 187-195): unconditionally set
`status='pending'`, `archived_at=None`, then
`save(update_fields=['status', 'archived_at'])` (again leaving
`updated_at` alone).  Note there is no guard on the current status. -/
def CulturalObject.restore (o : CulturalObject) : CulturalObject :=
  { o with status := Status.pending, archived_at := none }

/-- DRF `GenericAPIView.get_object` restricted to this viewset: look the pk
up inside the caller's `get_queryset`; a miss is a 404. -/
def get_object (user : Caller) (oid : Nat) (db : List CulturalObject) :
    Option CulturalObject :=
  (get_queryset user db).find? (fun o => o.oid == oid)

/-- Modelled from the spec: `IsAuthorOrReadOnly` (imported by views.py from
`objects/permissions.py`, a module not among the provided sources).  Per
the spec, a write is "permitted only if caller `isStaff` OR caller is the
record's author; otherwise rejected as a permission failure". -/
def has_object_permission (user : Caller) (o : CulturalObject) : Bool :=
  user.is_staff || user.owns o

-- Write-path validation (serializers.py lines 107-155).
--
-- DRF runs validation in two stages.  Stage one (`to_internal_value`) runs
-- every declared field's own validation — requiredness, `allow_blank`,
-- `max_length`, the `min_value`/`max_value` bounds that `ModelSerializer`
-- lifts from the model's `MinValueValidator`/`MaxValueValidator`
-- (models.py lines 84-102), the pk-resolution of `tags` and the
-- `validate_tags` hook — and accumulates the failures in one
-- field-keyed error dict.  Stage two, reached only when stage one
-- produced no errors, runs the serializer's cross-field `validate`
-- method.  The optional `description` and URL fields carry no modelled
-- constraint (URL well-formedness is a framework format check orthogonal
-- to every claim).

/-- Stage-one check of the `title` field: `CharField(max_length=200)` on
the model, so required on a full write, non-blank, at most 200 chars. -/
def titleFieldCheck (p : RawPayload) (requireAll : Bool) : Option (String × String) :=
  match p.title with
  | none => if requireAll then some ("title", "required") else none
  | some t =>
      if t = "" then some ("title", "blank")
      else if t.length > 200 then some ("title", "max_length")
      else none

/-- Stage-one check of `latitude`: required on a full write, and the model
validators demand `44.0 <= v <= 52.5` (written here as `mkRat 105 2`). -/
def latitudeFieldCheck (p : RawPayload) (requireAll : Bool) : Option (String × String) :=
  match p.latitude with
  | none => if requireAll then some ("latitude", "required") else none
  | some v =>
      if v < 44 then some ("latitude", "min_value")
      else if v > mkRat 105 2 then some ("latitude", "max_value")
      else none

/-- Stage-one check of `longitude`: required on a full write, bounds
`22.0 <= v <= 40.5` (`40.5` written as `mkRat 81 2`). -/
def longitudeFieldCheck (p : RawPayload) (requireAll : Bool) : Option (String × String) :=
  match p.longitude with
  | none => if requireAll then some ("longitude", "required") else none
  | some v =>
      if v < 22 then some ("longitude", "min_value")
      else if v > mkRat 81 2 then some ("longitude", "max_value")
      else none

/-- Stage-one check of `tags`: the `PrimaryKeyRelatedField(many=True)`
resolves every id against the tag table (unknown ids fail), then
`validate_tags` (serializers.py lines 127-138) demands between 1 and 5
tags. -/
def tagsFieldCheck (tagDb : List Nat) (p : RawPayload) (requireAll : Bool) :
    Option (String × String) :=
  match p.tags with
  | none => if requireAll then some ("tags", "required") else none
  | some ts =>
      if ts.all (fun t => tagDb.contains t) then
        if ts.length < 1 then some ("tags", "min_tags")
        else if ts.length > 5 then some ("tags", "max_tags")
        else none
      else some ("tags", "does_not_exist")

/-- The accumulated stage-one error dict: each field is checked
independently and every failure is recorded under its own field key. -/
def field_errors (tagDb : List Nat) (p : RawPayload) (requireAll : Bool) :
    List (String × String) :=
  (titleFieldCheck p requireAll).toList ++
  (latitudeFieldCheck p requireAll).toList ++
  (longitudeFieldCheck p requireAll).toList ++
  (tagsFieldCheck tagDb p requireAll).toList

/-- Embedding of `ObjectWriteSerializer.validate` (serializers.py lines 140-155): the
cross-field method re-checks the coordinate bounds, raising on the
latitude first (so inside this method the longitude check is
short-circuited by a latitude failure — faithfully kept here). -/
def serializer_validate (d : WritePayload) : Option (String × String) :=
  let latErr :=
    match d.latitude with
    | some v => if v < 44 || v > mkRat 105 2 then some ("latitude", "out_of_ukraine") else none
    | none => none
  match latErr with
  | some e => some e
  | none =>
      match d.longitude with
      | some v => if v < 22 || v > mkRat 81 2 then some ("longitude", "out_of_ukraine") else none
      | none => none

/-- The serializer's `is_valid` pipeline: stage-one field errors, if any,
are reported together; otherwise the cross-field `validate` runs on the
extracted data. -/
def run_validation (tagDb : List Nat) (p : RawPayload) (requireAll : Bool) :
    Except (List (String × String)) WritePayload :=
  match field_errors tagDb p requireAll with
  | [] =>
      match serializer_validate (writeSerializerExtract p) with
      | some e => Except.error [e]
      | none => Except.ok (writeSerializerExtract p)
  | errs => Except.error errs

-- API orchestration (ObjectViewSet with
-- permission_classes = [IsAuthenticatedOrReadOnly, IsAuthorOrReadOnly]).

/-- Outcome of a write endpoint, standing for the HTTP statuses 200/201,
400, 401, 403 and 404. -/
inductive WriteResult
  | ok (o : CulturalObject)
  | badRequest (errors : List (String × String))
  | unauthorized
  | forbidden
  | notFound
deriving DecidableEq, Repr

/-- Persist a saved row back into the table, keyed by primary key. -/
def db_replace (db : List CulturalObject) (oid : Nat) (o : CulturalObject) :
    List CulturalObject :=
  db.map (fun x => if x.oid == oid then o else x)

/-- POST /objects/: `IsAuthenticatedOrReadOnly` rejects anonymous writers
with 401; then the write serializer validates; then `perform_create`
saves with `author=request.user` (views.py lines 78-79). -/
def api_create (user : Caller) (tagDb : List Nat) (p : RawPayload) (oid now : Nat) :
    WriteResult :=
  match user with
  | Caller.anon => WriteResult.unauthorized
  | Caller.auth uid _ =>
      match run_validation tagDb p true with
      | Except.error errs => WriteResult.badRequest errs
      | Except.ok d => WriteResult.ok (perform_create uid d oid now)

/-- PATCH /objects/{id}/: 401 for anonymous callers, 404 when the pk is not
in the caller's queryset, 403 when `IsAuthorOrReadOnly` refuses, 400 on
validation failure, otherwise `perform_update` saves the instance. -/
def api_update (user : Caller) (oid : Nat) (tagDb : List Nat) (p : RawPayload)
    (db : List CulturalObject) (now : Nat) : WriteResult × List CulturalObject :=
  if !user.is_authenticated then
    (WriteResult.unauthorized, db)
  else
    match get_object user oid db with
    | none => (WriteResult.notFound, db)
    | some o =>
        if !has_object_permission user o then
          (WriteResult.forbidden, db)
        else
          match run_validation tagDb p false with
          | Except.error errs => (WriteResult.badRequest errs, db)
          | Except.ok d =>
              let saved := perform_update user o d now
              (WriteResult.ok saved, db_replace db oid saved)

/-- DELETE /objects/{id}/ = `ObjectViewSet.destroy` (views.py lines 89-92):
locate through the visible queryset (404 on miss), check
`IsAuthorOrReadOnly` (403), then `instance.archive()` and answer 200
with a confirmation payload. -/
def api_destroy (user : Caller) (oid : Nat) (db : List CulturalObject) (now : Nat) :
    WriteResult × List CulturalObject :=
  if !user.is_authenticated then
    (WriteResult.unauthorized, db)
  else
    match get_object user oid db with
    | none => (WriteResult.notFound, db)
    | some o =>
        if !has_object_permission user o then
          (WriteResult.forbidden, db)
        else
          let archived := o.archive now
          (WriteResult.ok archived, db_replace db oid archived)

-- Shared fixtures: a tag table, an approved record, a one-row database and
-- a full create payload that also tries to smuggle in protected fields.

/-- A small tag table with ids 1 and 2. -/
def tagDb0 : List Nat := [1, 2]

/-- An approved record authored by user 7, with primary key 1. -/
def objA : CulturalObject :=
  { oid := 1
    title := "Approved object"
    description := ""
    latitude := 50
    longitude := 30
    author := 7
    tags := [1]
    status := Status.approved
    wikipedia_url := none
    official_website := none
    google_maps_url := none
    created_at := 0
    updated_at := 0
    archived_at := none }

/-- A one-row database holding `objA`. -/
def db0 : List CulturalObject := [objA]

/-- A complete, valid create payload that additionally tries to submit
`status='approved'`, `author=99` and explicit timestamps. -/
def payloadFull : RawPayload :=
  { title := some "Test castle"
    description := some "A description"
    latitude := some 50
    longitude := some 30
    tags := some [1]
    wikipedia_url := none
    official_website := none
    google_maps_url := none
    status := some Status.approved
    author := some 99
    archived_at := some (some 3)
    created_at := some 3
    updated_at := some 3 }

-- Claim C4: the archived_at/status invariant over all reachable states.

/-- Record states reachable through the write surface: a fresh create,
followed by any sequence of updates, archives and restores. -/
inductive Reachable : CulturalObject → Prop
  | create (uid : Nat) (d : WritePayload) (oid now : Nat) :
      Reachable (perform_create uid d oid now)
  | update (user : Caller) (o : CulturalObject) (d : WritePayload) (now : Nat) :
      Reachable o → Reachable (perform_update user o d now)
  | archiveStep (o : CulturalObject) (now : Nat) :
      Reachable o → Reachable (o.archive now)
  | restoreStep (o : CulturalObject) :
      Reachable o → Reachable o.restore

/-- Error list of a validation outcome (empty on success). -/
def errorsOf : Except (List (String × String)) WritePayload → List (String × String)
  | Except.error e => e
  | Except.ok _ => []

-- Claim C1: update transition rule.

/-- Claim C1: for every update, if the record is currently `approved` and the
caller is not staff, the saved record has status `pending` with
`archived_at` untouched; if the caller is staff or the current status is
not `approved`, the status is unchanged by the update. -/
theorem C1_update_transition (user : Caller) (o : CulturalObject) (d : WritePayload)
    (now : Nat) :
    (o.status = Status.approved → user.is_staff = false →
      (perform_update user o d now).status = Status.pending ∧
      (perform_update user o d now).archived_at = o.archived_at) ∧
    (user.is_staff = true ∨ o.status ≠ Status.approved →
      (perform_update user o d now).status = o.status) := by
  unfold perform_update applyWrite
  constructor
  · intro hap hst
    simp [hap, hst]
  · intro h
    rcases h with h | h
    · simp [h]
    · have : decide (o.status = Status.approved) = false := by
        simpa using h
      simp [this]

/-- Concrete instantiation of `C1_update_transition`: a non-staff author
editing an approved record sends it back to `pending`; a staff edit of
the same record leaves it `approved`. -/
theorem C1_update_transition_witness :
    (perform_update (Caller.auth 1 false)
      (CulturalObject.mk 1 "Lviv Opera House" "" 49 24 1 [1] Status.approved
        none none none 0 0 none)
      (WritePayload.mk (some "New title") none none none none none none none) 5).status
        = Status.pending ∧
    (perform_update (Caller.auth 2 true)
      (CulturalObject.mk 1 "Lviv Opera House" "" 49 24 1 [1] Status.approved
        none none none 0 0 none)
      (WritePayload.mk (some "New title") none none none none none none none) 5).status
        = Status.approved := by
  refine ⟨?_, ?_⟩
  · exact ((C1_update_transition (Caller.auth 1 false) _ _ 5).1 rfl rfl).1
  · exact (C1_update_transition (Caller.auth 2 true) _ _ 5).2 (Or.inl rfl)

-- Claim C2: visibility of the listing/retrieval queryset.

/-- Claim C2: the queryset never contains an archived record; staff see every
non-archived record; a non-staff authenticated caller sees exactly the
approved records and their own; an anonymous caller sees exactly the
approved records. -/
theorem C2_queryset_visibility (user : Caller) (db : List CulturalObject)
    (o : CulturalObject) :
    o ∈ get_queryset user db ↔
      o ∈ db ∧ o.status ≠ Status.archived ∧
        (match user with
          | Caller.anon => o.status = Status.approved
          | Caller.auth uid staff =>
              staff = true ∨ o.status = Status.approved ∨ o.author = uid) := by
  unfold get_queryset
  cases user with
  | anon =>
      simp only [Caller.is_staff, Caller.is_authenticated, Bool.false_eq_true,
        if_false, List.mem_filter, decide_eq_true_iff]
      tauto
  | auth uid staff =>
      cases staff with
      | false =>
          simp only [Caller.is_staff, Caller.is_authenticated, Bool.false_eq_true,
            if_false, if_true, List.mem_filter, Bool.or_eq_true,
            decide_eq_true_iff, Caller.owns, beq_iff_eq]
          tauto
      | true =>
          simp [Caller.is_staff, List.mem_filter]

-- Claim C3: create forces pending status and caller authorship.

/-- Claim C3: a create by an authenticated caller that succeeds always
produces a record with status `pending` and author equal to the caller,
regardless of any `status`/`author` values in the submitted payload;
an anonymous create is rejected with 401. -/
theorem C3_create_forces_pending_and_author (uid : Nat) (s : Bool) (tagDb : List Nat)
    (p : RawPayload) (oid now : Nat) :
    (∀ o, api_create (Caller.auth uid s) tagDb p oid now = WriteResult.ok o →
      o.status = Status.pending ∧ o.author = uid) ∧
    api_create Caller.anon tagDb p oid now = WriteResult.unauthorized := by
  constructor
  · intro o h
    unfold api_create at h
    cases hv : run_validation tagDb p true with
    | error errs =>
        rw [hv] at h
        exact WriteResult.noConfusion h
    | ok d =>
        rw [hv] at h
        injection h with h
        subst h
        exact ⟨rfl, rfl⟩
  · rfl

/-- Concrete instantiation of `C3_create_forces_pending_and_author`: user 7
submits `payloadFull` (which asks for status `approved` and author 99) and
still gets a `pending` record authored by 7. -/
theorem C3_create_witness :
    (perform_create 7 (writeSerializerExtract payloadFull) 11 3).status = Status.pending ∧
    (perform_create 7 (writeSerializerExtract payloadFull) 11 3).author = 7 :=
  (C3_create_forces_pending_and_author 7 false tagDb0 payloadFull 11 3).1
    (perform_create 7 (writeSerializerExtract payloadFull) 11 3) (by decide)

/-- Claim C4: in every reachable record state, `archived_at` is non-null
exactly when the status is `archived`; create establishes the invariant
and update, archive and restore preserve it. -/
theorem C4_archived_at_invariant (o : CulturalObject) (h : Reachable o) :
    o.archived_at ≠ none ↔ o.status = Status.archived := by
  induction h with
  | create uid d oid now =>
      simp [perform_create]
  | update user o d now _ ih =>
      by_cases hb : (!user.is_staff && decide (o.status = Status.approved)) = true
      · have happ : o.status = Status.approved :=
          of_decide_eq_true ((Bool.and_eq_true _ _).mp hb).2
        have hnone : o.archived_at = none := by
          by_contra hne
          have h2 := ih.mp hne
          rw [happ] at h2
          exact Status.noConfusion h2
        simp [perform_update, applyWrite, hb, hnone]
      · have hb' := Bool.eq_false_iff.mpr hb
        simpa [perform_update, applyWrite, hb'] using ih
  | archiveStep o now _ _ =>
      simp [CulturalObject.archive]
  | restoreStep o _ _ =>
      simp [CulturalObject.restore]

/-- Concrete instantiation of `C4_archived_at_invariant` on the reachable
state create-then-archive. -/
theorem C4_invariant_witness :
    ((perform_create 7 (writeSerializerExtract payloadFull) 11 3).archive 9).archived_at ≠ none ↔
      ((perform_create 7 (writeSerializerExtract payloadFull) 11 3).archive 9).status =
        Status.archived :=
  C4_archived_at_invariant _
    (Reachable.archiveStep _ 9
      (Reachable.create 7 (writeSerializerExtract payloadFull) 11 3))

-- Claim C5: archiving twice through the API.

/-- Every member of a caller's queryset is a database row that is not
archived (the `exclude(status='archived')` base of `get_queryset`). -/
theorem mem_of_mem_get_queryset {user : Caller} {db : List CulturalObject}
    {o : CulturalObject} (h : o ∈ get_queryset user db) :
    o ∈ db ∧ o.status ≠ Status.archived := by
  unfold get_queryset at h
  cases user with
  | anon =>
      simp only [Caller.is_staff, Caller.is_authenticated, Bool.false_eq_true,
        if_false, List.mem_filter, decide_eq_true_iff] at h
      exact ⟨h.1.1, h.1.2⟩
  | auth uid staff =>
      cases staff with
      | false =>
          simp only [Caller.is_staff, Caller.is_authenticated, Bool.false_eq_true,
            if_false, if_true, List.mem_filter, decide_eq_true_iff] at h
          exact ⟨h.1.1, h.1.2⟩
      | true =>
          simp only [Caller.is_staff, if_true, List.mem_filter,
            decide_eq_true_iff] at h
          exact h

/-- Claim C5: when an archive call succeeds at time `n1`, the saved record
has `archived_at = n1`; afterwards every row with that id carries
`archived_at = n1`, and a second archive call on the same id answers
not-found and leaves the database exactly as it was — so `archived_at` is
unchanged from the first call. -/
theorem C5_double_archive (user : Caller) (oid : Nat) (db db1 : List CulturalObject)
    (n1 n2 : Nat) (o1 : CulturalObject)
    (h : api_destroy user oid db n1 = (WriteResult.ok o1, db1)) :
    o1.archived_at = some n1 ∧
    (∀ x, x ∈ db1 → x.oid = oid → x.archived_at = some n1) ∧
    api_destroy user oid db1 n2 = (WriteResult.notFound, db1) := by
  cases user with
  | anon =>
      simp [api_destroy, Caller.is_authenticated] at h
  | auth uid s =>
      cases hg : get_object (Caller.auth uid s) oid db with
      | none =>
          unfold api_destroy at h
          simp [Caller.is_authenticated, hg] at h
      | some o =>
          by_cases hp : has_object_permission (Caller.auth uid s) o = true
          · unfold api_destroy at h
            simp only [Caller.is_authenticated, Bool.not_true, Bool.false_eq_true,
              if_false, hg, hp, Bool.not_false, Prod.mk.injEq,
              WriteResult.ok.injEq] at h
            obtain ⟨h1, h2⟩ := h
            subst h1
            subst h2
            refine ⟨rfl, ?_, ?_⟩
            · intro x hx hxoid
              unfold db_replace at hx
              obtain ⟨x0, hx0, heq⟩ := List.mem_map.mp hx
              by_cases hb : (x0.oid == oid) = true
              · rw [if_pos hb] at heq
                subst heq
                rfl
              · rw [if_neg hb] at heq
                subst heq
                exact absurd (beq_iff_eq.mpr hxoid) hb
            · have hnone : get_object (Caller.auth uid s) oid
                  (db_replace db oid (o.archive n1)) = none := by
                unfold get_object
                rw [List.find?_eq_none]
                intro x hx hbeq
                have hmem := mem_of_mem_get_queryset hx
                have hxoid : x.oid = oid := beq_iff_eq.mp hbeq
                unfold db_replace at hmem
                obtain ⟨x0, hx0, heq⟩ := List.mem_map.mp hmem.1
                by_cases hb : (x0.oid == oid) = true
                · rw [if_pos hb] at heq
                  subst heq
                  exact hmem.2 rfl
                · rw [if_neg hb] at heq
                  subst heq
                  exact hb (beq_iff_eq.mpr hxoid)
              unfold api_destroy
              simp [Caller.is_authenticated, hnone]
          · unfold api_destroy at h
            have hp' := Bool.eq_false_iff.mpr hp
            simp [Caller.is_authenticated, hg, hp'] at h

/-- Concrete instantiation of `C5_double_archive`: user 7 archives the
approved record with id 1 at time 4; a second delete at time 9 reports
not-found and the database keeps `archived_at = 4`. -/
theorem C5_double_archive_witness :
    (objA.archive 4).archived_at = some 4 ∧
    (∀ x, x ∈ db_replace db0 1 (objA.archive 4) → x.oid = 1 →
      x.archived_at = some 4) ∧
    api_destroy (Caller.auth 7 false) 1 (db_replace db0 1 (objA.archive 4)) 9 =
      (WriteResult.notFound, db_replace db0 1 (objA.archive 4)) :=
  C5_double_archive (Caller.auth 7 false) 1 db0
    (db_replace db0 1 (objA.archive 4)) 4 9 (objA.archive 4) (by decide)

-- Claim C6: restore on a non-archived record.

/-- Claim C6 fails on the code: `CulturalObject.restore` has no guard, so
invoking it on the approved record `objA` changes its status from
`approved` to `pending` — not a no-op.  The repository's own test
`test_restore_non_archived_is_noop` (tests/test_models.py lines 287-301)
expects the status to stay `approved`, so the model method contradicts
the test suite. -/
theorem C6_restore_not_noop_on_approved :
    objA.status = Status.approved ∧ objA.restore.status = Status.pending ∧
    objA.restore.status ≠ objA.status := by
  decide

-- Claim C7: permission versus not-found on writes.

/-- Claim C7: for an authenticated caller, a write (update or archive) to a
record inside the caller's visible set is permitted exactly when the
caller is staff or the record's author — otherwise both endpoints answer
403 with the database unchanged — while an id outside the visible set
yields 404 with the database unchanged.  (`IsAuthorOrReadOnly` is
modelled from the spec; see `has_object_permission`.) -/
theorem C7_write_permission (uid : Nat) (s : Bool) (oid : Nat) (tagDb : List Nat)
    (p : RawPayload) (db : List CulturalObject) (now : Nat) :
    (∀ o, get_object (Caller.auth uid s) oid db = some o →
      (¬(s = true ∨ o.author = uid) →
        api_update (Caller.auth uid s) oid tagDb p db now = (WriteResult.forbidden, db) ∧
        api_destroy (Caller.auth uid s) oid db now = (WriteResult.forbidden, db)) ∧
      ((s = true ∨ o.author = uid) →
        (api_update (Caller.auth uid s) oid tagDb p db now).1 ≠ WriteResult.forbidden ∧
        (api_update (Caller.auth uid s) oid tagDb p db now).1 ≠ WriteResult.notFound ∧
        api_destroy (Caller.auth uid s) oid db now =
          (WriteResult.ok (o.archive now), db_replace db oid (o.archive now)))) ∧
    (get_object (Caller.auth uid s) oid db = none →
      api_update (Caller.auth uid s) oid tagDb p db now = (WriteResult.notFound, db) ∧
      api_destroy (Caller.auth uid s) oid db now = (WriteResult.notFound, db)) := by
  constructor
  · intro o hg
    have hperm_iff : has_object_permission (Caller.auth uid s) o = true ↔
        (s = true ∨ o.author = uid) := by
      simp [has_object_permission, Caller.is_staff, Caller.owns, Bool.or_eq_true,
        beq_iff_eq]
    constructor
    · intro hno
      have hp : has_object_permission (Caller.auth uid s) o = false := by
        rw [Bool.eq_false_iff]
        intro hc
        exact hno (hperm_iff.mp hc)
      constructor
      · unfold api_update
        simp [Caller.is_authenticated, hg, hp]
      · unfold api_destroy
        simp [Caller.is_authenticated, hg, hp]
    · intro hyes
      have hp := hperm_iff.mpr hyes
      have hupd : api_update (Caller.auth uid s) oid tagDb p db now =
          (match run_validation tagDb p false with
            | Except.error errs => (WriteResult.badRequest errs, db)
            | Except.ok d =>
                (WriteResult.ok (perform_update (Caller.auth uid s) o d now),
                  db_replace db oid (perform_update (Caller.auth uid s) o d now))) := by
        unfold api_update
        simp [Caller.is_authenticated, hg, hp]
      have hdes : api_destroy (Caller.auth uid s) oid db now =
          (WriteResult.ok (o.archive now), db_replace db oid (o.archive now)) := by
        unfold api_destroy
        simp [Caller.is_authenticated, hg, hp]
      refine ⟨?_, ?_, hdes⟩
      · rw [hupd]
        cases run_validation tagDb p false <;> simp
      · rw [hupd]
        cases run_validation tagDb p false <;> simp
  · intro hg
    constructor
    · unfold api_update
      simp [Caller.is_authenticated, hg]
    · unfold api_destroy
      simp [Caller.is_authenticated, hg]

/-- Concrete instantiation of `C7_write_permission`: user 8 (not author, not
staff) gets 403 updating the visible approved record 1, and 404 deleting
the nonexistent id 2, with the database untouched both times. -/
theorem C7_write_permission_witness :
    api_update (Caller.auth 8 false) 1 tagDb0 payloadFull db0 5 =
      (WriteResult.forbidden, db0) ∧
    api_destroy (Caller.auth 8 false) 2 db0 5 = (WriteResult.notFound, db0) := by
  refine ⟨?_, ?_⟩
  · exact (((C7_write_permission 8 false 1 tagDb0 payloadFull db0 5).1 objA
      (by decide)).1 (by decide)).1
  · exact ((C7_write_permission 8 false 2 tagDb0 payloadFull db0 5).2 (by decide)).2

-- Claim C8: field-level violations accumulate, each under its own field.

/-- Shape lemma: the title check either passes or produces an error keyed
`"title"`. -/
theorem titleFieldCheck_cases (p : RawPayload) (r : Bool) :
    titleFieldCheck p r = none ∨ ∃ m, titleFieldCheck p r = some ("title", m) := by
  unfold titleFieldCheck
  cases p.title with
  | none =>
      cases r with
      | true => exact Or.inr ⟨"required", rfl⟩
      | false => exact Or.inl rfl
  | some t =>
      by_cases h1 : t = ""
      · exact Or.inr ⟨"blank", by simp [h1]⟩
      · by_cases h2 : t.length > 200
        · exact Or.inr ⟨"max_length", by simp [h1, h2]⟩
        · exact Or.inl (by simp [h1, h2])

/-- Shape lemma: the latitude check either passes or produces an error keyed
`"latitude"`. -/
theorem latitudeFieldCheck_cases (p : RawPayload) (r : Bool) :
    latitudeFieldCheck p r = none ∨ ∃ m, latitudeFieldCheck p r = some ("latitude", m) := by
  unfold latitudeFieldCheck
  cases p.latitude with
  | none =>
      cases r with
      | true => exact Or.inr ⟨"required", rfl⟩
      | false => exact Or.inl rfl
  | some v =>
      by_cases h1 : v < 44
      · exact Or.inr ⟨"min_value", by simp [h1]⟩
      · by_cases h2 : v > mkRat 105 2
        · exact Or.inr ⟨"max_value", by simp [h1, h2]⟩
        · exact Or.inl (by simp [h1, h2])

/-- Shape lemma: the longitude check either passes or produces an error
keyed `"longitude"`. -/
theorem longitudeFieldCheck_cases (p : RawPayload) (r : Bool) :
    longitudeFieldCheck p r = none ∨
      ∃ m, longitudeFieldCheck p r = some ("longitude", m) := by
  unfold longitudeFieldCheck
  cases p.longitude with
  | none =>
      cases r with
      | true => exact Or.inr ⟨"required", rfl⟩
      | false => exact Or.inl rfl
  | some v =>
      by_cases h1 : v < 22
      · exact Or.inr ⟨"min_value", by simp [h1]⟩
      · by_cases h2 : v > mkRat 81 2
        · exact Or.inr ⟨"max_value", by simp [h1, h2]⟩
        · exact Or.inl (by simp [h1, h2])

/-- Shape lemma: the tags check either passes or produces an error keyed
`"tags"`. -/
theorem tagsFieldCheck_cases (tagDb : List Nat) (p : RawPayload) (r : Bool) :
    tagsFieldCheck tagDb p r = none ∨
      ∃ m, tagsFieldCheck tagDb p r = some ("tags", m) := by
  cases hp : p.tags with
  | none =>
      cases r with
      | true => exact Or.inr ⟨"required", by simp [tagsFieldCheck, hp]⟩
      | false => exact Or.inl (by simp [tagsFieldCheck, hp])
  | some ts =>
      by_cases h1 : (ts.all fun t => tagDb.contains t) = true
      · by_cases h2 : ts.length < 1
        · refine Or.inr ⟨"min_tags", ?_⟩
          simp only [tagsFieldCheck, hp]
          rw [if_pos h1, if_pos h2]
        · by_cases h3 : ts.length > 5
          · refine Or.inr ⟨"max_tags", ?_⟩
            simp only [tagsFieldCheck, hp]
            rw [if_pos h1, if_neg h2, if_pos h3]
          · refine Or.inl ?_
            simp only [tagsFieldCheck, hp]
            rw [if_pos h1, if_neg h2, if_neg h3]
      · refine Or.inr ⟨"does_not_exist", ?_⟩
        simp only [tagsFieldCheck, hp]
        rw [if_neg h1]

/-- When the field-stage coordinate checks pass, the serializer's
cross-field `validate` (the duplicate bounds check) cannot fire: its
branches re-test exactly the bounds the fields already enforced. -/
theorem serializer_validate_none_of_checks (p : RawPayload) (r : Bool)
    (hla : latitudeFieldCheck p r = none) (hlo : longitudeFieldCheck p r = none) :
    serializer_validate (writeSerializerExtract p) = none := by
  unfold latitudeFieldCheck at hla
  unfold longitudeFieldCheck at hlo
  unfold serializer_validate writeSerializerExtract
  cases hpla : p.latitude with
  | none =>
      cases hplo : p.longitude with
      | none => simp
      | some w =>
          rw [hplo] at hlo
          by_cases h1 : w < 22
          · simp [h1] at hlo
          · by_cases h2 : w > mkRat 81 2
            · simp [h1, h2] at hlo
            · simp [h1, h2]
  | some v =>
      rw [hpla] at hla
      by_cases h1 : v < 44
      · simp [h1] at hla
      · by_cases h2 : v > mkRat 105 2
        · simp [h1, h2] at hla
        · cases hplo : p.longitude with
          | none => simp [h1, h2]
          | some w =>
              rw [hplo] at hlo
              by_cases h3 : w < 22
              · simp [h3] at hlo
              · by_cases h4 : w > mkRat 81 2
                · simp [h3, h4] at hlo
                · simp [h1, h2, h3, h4]

/-- An option whose `toList` is empty is `none`. -/
theorem optionToList_eq_nil {α : Type} {o : Option α} (h : o.toList = []) : o = none := by
  cases o with
  | none => rfl
  | some a => simp [Option.toList] at h

/-- Claim C8: for every payload, each of the four field-level checks is
reported in the validation outcome exactly when it fails on its own,
attributed to its own field — a failing latitude does not suppress a
failing longitude, a bad title does not suppress a bad tag count, and so
on (accumulate-all, not fail-fast, across fields). -/
theorem C8_field_errors_accumulate (tagDb : List Nat) (p : RawPayload) (r : Bool) :
    ((∃ m, ("title", m) ∈ errorsOf (run_validation tagDb p r)) ↔
      titleFieldCheck p r ≠ none) ∧
    ((∃ m, ("latitude", m) ∈ errorsOf (run_validation tagDb p r)) ↔
      latitudeFieldCheck p r ≠ none) ∧
    ((∃ m, ("longitude", m) ∈ errorsOf (run_validation tagDb p r)) ↔
      longitudeFieldCheck p r ≠ none) ∧
    ((∃ m, ("tags", m) ∈ errorsOf (run_validation tagDb p r)) ↔
      tagsFieldCheck tagDb p r ≠ none) := by
  rcases titleFieldCheck_cases p r with h1 | ⟨m1, h1⟩ <;>
    rcases latitudeFieldCheck_cases p r with h2 | ⟨m2, h2⟩ <;>
      rcases longitudeFieldCheck_cases p r with h3 | ⟨m3, h3⟩ <;>
        rcases tagsFieldCheck_cases tagDb p r with h4 | ⟨m4, h4⟩
  all_goals first
    | · have hrv : run_validation tagDb p r = Except.ok (writeSerializerExtract p) := by
          unfold run_validation field_errors
          simp [h1, h2, h3, h4, serializer_validate_none_of_checks p r h2 h3]
        simp [hrv, errorsOf, h1, h2, h3, h4]
    | · have hrv : run_validation tagDb p r = Except.error (field_errors tagDb p r) := by
          unfold run_validation field_errors
          simp [h1, h2, h3, h4, Option.toList]
        rw [hrv]
        simp [errorsOf, field_errors, h1, h2, h3, h4, Option.toList]

/-- Concrete instantiation of `C8_field_errors_accumulate`: a payload whose
latitude (43) and longitude (41) are both out of bounds gets both errors
reported, each under its own field. -/
theorem C8_accumulate_witness :
    (∃ m, ("latitude", m) ∈ errorsOf (run_validation tagDb0
      (RawPayload.mk (some "T") none (some 43) (some 41) (some [1])
        none none none none none none none none) true)) ∧
    (∃ m, ("longitude", m) ∈ errorsOf (run_validation tagDb0
      (RawPayload.mk (some "T") none (some 43) (some 41) (some [1])
        none none none none none none none none) true)) := by
  refine ⟨?_, ?_⟩
  · exact (C8_field_errors_accumulate tagDb0
      (RawPayload.mk (some "T") none (some 43) (some 41) (some [1])
        none none none none none none none none) true).2.1.mpr (by decide)
  · exact (C8_field_errors_accumulate tagDb0
      (RawPayload.mk (some "T") none (some 43) (some 41) (some [1])
        none none none none none none none none) true).2.2.1.mpr (by decide)

-- Claim C9: which mutations refresh updated_at.

/-- Claim C9 fails on the code: archiving `objA` (whose `updated_at` is 0)
at time 5 saves with `update_fields=['status', 'archived_at']`, so the
`auto_now` column `updated_at` keeps its old value 0 instead of the
mutation time 5. -/
theorem C9_archive_skips_updated_at :
    (objA.archive 5).updated_at = 0 ∧ (objA.archive 5).updated_at ≠ 5 := by
  decide

/-- Claim C9 as amended: an update through the write path sets `updated_at`
to the mutation time, while archive and restore perform the restricted
two-field write and leave `updated_at` unchanged. -/
theorem C9_updated_at_amended (user : Caller) (o : CulturalObject) (d : WritePayload)
    (now m : Nat) :
    (perform_update user o d now).updated_at = now ∧
    (o.archive m).updated_at = o.updated_at ∧
    o.restore.updated_at = o.updated_at := by
  refine ⟨?_, rfl, rfl⟩
  by_cases hb : (!user.is_staff && decide (o.status = Status.approved)) = true
  · simp [perform_update, applyWrite, hb]
  · simp [perform_update, applyWrite, Bool.eq_false_iff.mpr hb]

-- Claim C10: protected fields cannot be set through the write path.

/-- Claim C10: the write serializer reads none of `status`, `author`,
`archived_at`, `created_at`, `updated_at` from the submitted body (its
extraction is invariant under changing them), and an update never
changes `author`, `created_at` or `archived_at` — its status after the
save is either the old status or the forced `pending` of the auto-revert
rule. -/
theorem C10_protected_fields_ignored :
    (∀ (p : RawPayload) (st : Option Status) (au : Option Nat)
        (aat : Option (Option Nat)) (cat uat : Option Nat),
      writeSerializerExtract
        { p with status := st, author := au, archived_at := aat,
                 created_at := cat, updated_at := uat } =
        writeSerializerExtract p) ∧
    (∀ (user : Caller) (o : CulturalObject) (d : WritePayload) (now : Nat),
      (perform_update user o d now).author = o.author ∧
      (perform_update user o d now).created_at = o.created_at ∧
      (perform_update user o d now).archived_at = o.archived_at ∧
      ((perform_update user o d now).status = o.status ∨
        (perform_update user o d now).status = Status.pending)) := by
  constructor
  · intro p st au aat cat uat
    rfl
  · intro user o d now
    by_cases hb : (!user.is_staff && decide (o.status = Status.approved)) = true
    · refine ⟨?_, ?_, ?_, Or.inr ?_⟩ <;> simp [perform_update, applyWrite, hb]
    · refine ⟨?_, ?_, ?_, Or.inl ?_⟩ <;>
        simp [perform_update, applyWrite, Bool.eq_false_iff.mpr hb]

/-- Concrete instantiation of `C2_queryset_visibility`: the anonymous caller
sees the approved record `objA` of `db0`. -/
theorem C2_queryset_visibility_witness : objA ∈ get_queryset Caller.anon db0 :=
  (C2_queryset_visibility Caller.anon db0 objA).mpr (by decide)
